import Mathlib

/-!
# Verification of the ai-study-companion retrieval and grounding engine

A shallow embedding of the repository's vector-store queries
(`frontend/lib/db/embeddings/queries.ts`), resource queries
(`frontend/lib/db/resources/queries.ts`), the agent tools
(`frontend/lib/ai/agents/tools/*`), the embedding client
(`frontend/lib/ai/embeddings/generate.ts`), the resource DELETE endpoint,
and the (spec-modelled) chunker, together with theorems settling the
frozen claims about them.

Modelling conventions:
* The Postgres tables are lists of records in insertion order
  (the `id` field of an embedding row records its insertion rank).
* The SQL expression `1 - cosineDistance(embedding, query)` is a per-row
  scalar computed by pgvector; it is modelled by an arbitrary function
  `cd : List ℚ → List ℚ → ℚ` (the `<=>` operator), so every theorem holds
  for every similarity assignment, in particular for exact cosine distance.
* The guarantee of `ORDER BY similarity DESC LIMIT n` is captured by
  `sqlSearchResult`: the output is a prefix of some descending-by-similarity
  arrangement of the filtered rows.  The queries have no secondary sort
  key, so the relative order of equal-similarity rows is unconstrained;
  the executable search functions realize one admissible arrangement
  (a stable sort), and every theorem about them that involves order is
  tie-order invariant.
* Functions whose TypeScript bodies can throw are modelled in `Except`;
  `try`/`catch` is a `match` on the `Except` value.
-/

namespace StudyCompanion

/-- One row of the `embeddings` table: `id` (insertion rank), owning
`resource_id`, nullable `chunk_index`, text content and embedding vector. -/
structure EmbeddingRow where
  id : Nat
  resourceId : String
  chunkIndex : Option Int
  content : String
  embedding : List ℚ
  deriving Repr, DecidableEq

/-- One row of the `resources` table (`frontend/lib/db/resources/schema.ts`). -/
structure Resource where
  id : String
  filename : String
  folder : String
  pathname : String
  contentType : String
  status : String
  createdAt : Nat
  deriving Repr, DecidableEq

/-- The database state: the `resources` and `embeddings` tables. -/
structure Db where
  resources : List Resource
  embeddings : List EmbeddingRow
  deriving Repr, DecidableEq

/-- The `SimilaritySearchResult` type of `embeddings/queries.ts`:
the columns selected by the search queries.  `resourceName` and `folder`
are nullable because the join with `resources` is a LEFT JOIN. -/
structure SimilaritySearchResult where
  content : String
  similarity : ℚ
  resourceName : Option String
  folder : Option String
  chunkIndex : Option Int
  deriving Repr, DecidableEq

/-- The `SimilaritySearchOptions` type: optional limit and threshold,
each falling back to the module defaults when absent. -/
structure SimilaritySearchOptions where
  limit : Option Nat := none
  threshold : Option ℚ := none
  deriving Repr, DecidableEq

/-- `SIMILARITY_THRESHOLD = 0.5` from `embeddings/queries.ts`. -/
def SIMILARITY_THRESHOLD : ℚ := 1/2

/-- `FALLBACK_THRESHOLDS = [0.3, 0.15]` from `embeddings/queries.ts`. -/
def FALLBACK_THRESHOLDS : List ℚ := [3/10, 3/20]

/-- `DEFAULT_LIMIT = 3` from `embeddings/queries.ts`. -/
def DEFAULT_LIMIT : Nat := 3

/-- The LEFT JOIN key lookup: the resource row whose primary key equals
`rid`, if any. -/
def lookupResource (db : Db) (rid : String) : Option Resource :=
  db.resources.find? (fun r => r.id == rid)

/-- A scanned row of the search queries before projection: the embedding
row joined with its resource and the computed similarity
`1 - cosineDistance(embedding, query)`. -/
structure JoinedRow where
  embId : Nat
  resourceId : String
  content : String
  similarity : ℚ
  resourceName : Option String
  folder : Option String
  chunkIndex : Option Int
  deriving Repr, DecidableEq

/-- `FROM embeddings LEFT JOIN resources ON embeddings.resource_id = resources.id`
with the similarity column `1 - cd(embedding, query)` computed per row. -/
def joinedRows (db : Db) (cd : List ℚ → List ℚ → ℚ) (query : List ℚ) :
    List JoinedRow :=
  db.embeddings.map (fun e =>
    { embId := e.id
      resourceId := e.resourceId
      content := e.content
      similarity := 1 - cd e.embedding query
      resourceName := (lookupResource db e.resourceId).map (·.filename)
      folder := (lookupResource db e.resourceId).map (·.folder)
      chunkIndex := e.chunkIndex })

/-- The SELECT projection of the search queries. -/
def project (j : JoinedRow) : SimilaritySearchResult :=
  { content := j.content
    similarity := j.similarity
    resourceName := j.resourceName
    folder := j.folder
    chunkIndex := j.chunkIndex }

/-- The ordering used for `ORDER BY similarity DESC`: a row precedes
another when its similarity is at least as large. -/
def simGE (a b : JoinedRow) : Prop := b.similarity ≤ a.similarity

instance : DecidableRel simGE := fun a b =>
  inferInstanceAs (Decidable (b.similarity ≤ a.similarity))

/-- `ORDER BY similarity DESC` as realized by the executable model: one
admissible descending arrangement (a stable insertion sort); the SQL
itself constrains the order only up to similarity (see
`sqlSearchResult`). -/
def sortBySim (l : List JoinedRow) : List JoinedRow :=
  l.insertionSort simGE

/-- The WHERE clause, stable sort and LIMIT shared by the three search
queries: `p` is the scope predicate of the WHERE clause beyond the
similarity filter. -/
def rankedRows (db : Db) (cd : List ℚ → List ℚ → ℚ) (query : List ℚ)
    (p : JoinedRow → Bool) (threshold : ℚ) : List JoinedRow :=
  sortBySim ((joinedRows db cd query).filter
    (fun j => p j && decide (threshold < j.similarity)))

/-- `findRelevantContent` (`embeddings/queries.ts:161`): similarity search
over all embeddings, `WHERE similarity > threshold ORDER BY similarity
DESC LIMIT limit`. -/
def findRelevantContent (db : Db) (cd : List ℚ → List ℚ → ℚ)
    (query : List ℚ) (options : SimilaritySearchOptions := {}) :
    List SimilaritySearchResult :=
  let limit := options.limit.getD DEFAULT_LIMIT
  let threshold := options.threshold.getD SIMILARITY_THRESHOLD
  ((rankedRows db cd query (fun _ => true) threshold).take limit).map project

/-- `findRelevantContentByResourceId` (`embeddings/queries.ts:200`):
the same search restricted by `embeddings.resource_id = resourceId`. -/
def findRelevantContentByResourceId (db : Db) (cd : List ℚ → List ℚ → ℚ)
    (query : List ℚ) (resourceId : String)
    (options : SimilaritySearchOptions := {}) : List SimilaritySearchResult :=
  let limit := options.limit.getD DEFAULT_LIMIT
  let threshold := options.threshold.getD SIMILARITY_THRESHOLD
  ((rankedRows db cd query (fun j => j.resourceId == resourceId)
    threshold).take limit).map project

/-- `findRelevantContentByFolder` (`embeddings/queries.ts:241`): the same
search restricted by `resources.folder = folder` (a NULL folder from the
LEFT JOIN never matches, as in SQL). -/
def findRelevantContentByFolder (db : Db) (cd : List ℚ → List ℚ → ℚ)
    (query : List ℚ) (folder : String)
    (options : SimilaritySearchOptions := {}) : List SimilaritySearchResult :=
  let limit := options.limit.getD DEFAULT_LIMIT
  let threshold := options.threshold.getD SIMILARITY_THRESHOLD
  ((rankedRows db cd query (fun j => j.folder == some folder)
    threshold).take limit).map project

/-- A search scope: all rows, a single resource id, or a single folder
(collection tag). -/
inductive SearchScope where
  | all : SearchScope
  | byResource (rid : String) : SearchScope
  | byFolder (folder : String) : SearchScope
  deriving Repr, DecidableEq

/-- Dispatch to the scoped search function of `embeddings/queries.ts`. -/
def searchScoped (db : Db) (cd : List ℚ → List ℚ → ℚ) (query : List ℚ)
    (scope : SearchScope) (options : SimilaritySearchOptions := {}) :
    List SimilaritySearchResult :=
  match scope with
  | .all => findRelevantContent db cd query options
  | .byResource rid => findRelevantContentByResourceId db cd query rid options
  | .byFolder f => findRelevantContentByFolder db cd query f options

/-- The WHERE-clause scope predicate of each scoped search. -/
def scopePred (scope : SearchScope) : JoinedRow → Bool :=
  match scope with
  | .all => fun _ => true
  | .byResource rid => fun j => j.resourceId == rid
  | .byFolder f => fun j => j.folder == some f

/-- The return type of the multi-hop searches: results plus the threshold
and attempt number that produced them. -/
structure FallbackResult where
  results : List SimilaritySearchResult
  threshold : ℚ
  attempt : Nat
  deriving Repr, DecidableEq

/-- The `for` loop of `findRelevantContentWithFallback`
(`embeddings/queries.ts:364`): try each fallback threshold in order,
returning on the first non-empty result set with `attempt = i + 2`;
when the ladder is exhausted return no results, the last ladder
threshold and `attempt = FALLBACK_THRESHOLDS.length + 1`, exactly as the
source's final `return` does. -/
def tryFallbacksWith (search : SimilaritySearchOptions → List SimilaritySearchResult)
    (limit : Nat) : List ℚ → Nat → FallbackResult
  | [], _ =>
    { results := []
      threshold := FALLBACK_THRESHOLDS.getLastD 0
      attempt := FALLBACK_THRESHOLDS.length + 1 }
  | t :: ts, i =>
    let results := search { limit := some limit, threshold := some t }
    if results.isEmpty then tryFallbacksWith search limit ts (i + 1)
    else { results := results, threshold := t, attempt := i + 2 }

/-- The shared shape of the two multi-hop searches: try the initial
threshold, return with `attempt = 1` on success, otherwise walk the
fallback ladder. -/
def withFallback (search : SimilaritySearchOptions → List SimilaritySearchResult)
    (options : SimilaritySearchOptions) : FallbackResult :=
  let limit := options.limit.getD DEFAULT_LIMIT
  let threshold := options.threshold.getD SIMILARITY_THRESHOLD
  let results := search { limit := some limit, threshold := some threshold }
  if results.isEmpty then tryFallbacksWith search limit FALLBACK_THRESHOLDS 0
  else { results := results, threshold := threshold, attempt := 1 }

/-- `findRelevantContentWithFallback` (`embeddings/queries.ts:347`). -/
def findRelevantContentWithFallback (db : Db) (cd : List ℚ → List ℚ → ℚ)
    (query : List ℚ) (options : SimilaritySearchOptions := {}) : FallbackResult :=
  withFallback (fun opts => findRelevantContent db cd query opts) options

/-- `findRelevantContentByResourceIdWithFallback` (`embeddings/queries.ts:388`). -/
def findRelevantContentByResourceIdWithFallback (db : Db)
    (cd : List ℚ → List ℚ → ℚ) (query : List ℚ) (resourceId : String)
    (options : SimilaritySearchOptions := {}) : FallbackResult :=
  withFallback (fun opts => findRelevantContentByResourceId db cd query resourceId opts) options

/-- `deleteEmbeddingsByResourceId` (`embeddings/queries.ts:84`): removes
every embedding row of the resource; the TypeScript function returns
`Promise<void>`, so the model returns only the new state. -/
def deleteEmbeddingsByResourceId (db : Db) (resourceId : String) : Db :=
  { db with embeddings := db.embeddings.filter (fun e => !(e.resourceId == resourceId)) }

/-- `deleteEmbeddingsByFolder` (`embeddings/queries.ts:97`): collects the
ids of the folder's resources, deletes their embeddings, and returns
`resourceIds.length` (the source comments that Drizzle does not report a
deleted-row count, so it returns this estimate). -/
def deleteEmbeddingsByFolder (db : Db) (folder : String) : Db × Nat :=
  let resourcesInFolder := db.resources.filter (fun r => r.folder == folder)
  if resourcesInFolder.isEmpty then (db, 0)
  else
    let resourceIds := resourcesInFolder.map (·.id)
    ({ db with embeddings :=
        db.embeddings.filter (fun e => !(resourceIds.contains e.resourceId)) },
     resourceIds.length)

/-- `deleteResourceById` (`resources/queries.ts`). -/
def deleteResourceById (db : Db) (id : String) : Db :=
  { db with resources := db.resources.filter (fun r => !(r.id == id)) }

/-- `findResourceById` (`resources/queries.ts`). -/
def findResourceById (db : Db) (id : String) : Option Resource :=
  db.resources.find? (fun r => r.id == id)

/-- The DELETE handler of the resources API route: look the resource up,
delete its stored file (external side effect, not in the database state),
delete all its embeddings, then delete the resource row.  (The schema's
`ON DELETE cascade` foreign key would remove the chunks as well.) -/
def deleteResourceEndpoint (db : Db) (resourceId : String) : Db :=
  match findResourceById db resourceId with
  | none => db
  | some resource =>
    deleteResourceById (deleteEmbeddingsByResourceId db resource.id) resource.id

/-- The ascending `(folder, filename)` ordering of
`getResourcesPaginated`'s `ORDER BY asc(folder), asc(filename)`. -/
def resourceOrd (a b : Resource) : Prop :=
  a.folder < b.folder ∨ (a.folder = b.folder ∧ a.filename ≤ b.filename)

instance : DecidableRel resourceOrd := fun a b =>
  inferInstanceAs (Decidable (a.folder < b.folder ∨
    (a.folder = b.folder ∧ a.filename ≤ b.filename)))

/-- The `ILIKE '%search%'` predicate: case-insensitive substring match. -/
def ilikeContains (s pat : String) : Bool :=
  decide (List.IsInfix pat.toLower.toList s.toLower.toList)

/-- The search condition of `getResourcesPaginated`: filename or folder
contains the search term. -/
def matchesSearch (r : Resource) (search : String) : Bool :=
  ilikeContains r.filename search || ilikeContains r.folder search

/-- The return type of `getResourcesPaginated`. -/
structure PaginatedResources where
  resources : List Resource
  total : Nat
  totalPages : Nat
  currentPage : Nat
  hasNextPage : Bool
  hasPrevPage : Bool
  deriving Repr, DecidableEq

/-- `getResourcesPaginated` (`resources/queries.ts:37`): clamps the page
size to `min(limit, 50)`, filters by the search term (an empty term — a
falsy string in JavaScript — applies no condition), orders ascending by
folder then filename, and pages with `OFFSET (page-1)*limit`.  The total
counts every matching row. -/
def getResourcesPaginated (db : Db) (page limit : Nat) (search : String) :
    PaginatedResources :=
  let offset := (page - 1) * limit
  let maxLimit := min limit 50
  let filtered := if search == "" then db.resources
    else db.resources.filter (fun r => matchesSearch r search)
  let rows := ((filtered.insertionSort resourceOrd).drop offset).take maxLimit
  let total := filtered.length
  let totalPages := (total + maxLimit - 1) / maxLimit
  { resources := rows
    total := total
    totalPages := totalPages
    currentPage := page
    hasNextPage := page < totalPages
    hasPrevPage := 1 < page }

/-- The per-resource projection the list-resources tool returns. -/
structure ResourceSummary where
  id : String
  filename : String
  contentType : String
  status : String
  createdAt : Nat
  deriving Repr, DecidableEq

/-- The result object of the list-resources tool; `error` is set only by
the catch branch. -/
structure AllResourcesResult where
  total : Nat
  resources : List ResourceSummary
  error : Option String := none
  deriving Repr, DecidableEq

/-- `getAllResources.execute` (`tools/get-all-resources.ts:13`): calls
`getResourcesPaginated({page: 1, limit: input.limit || 100})` — the zod
default is 100 and a falsy (zero) limit also becomes 100 — maps the rows
to summaries, and on any thrown error returns
`{total: 0, resources: [], error}` instead of propagating.  The
database call is an `Except`-valued oracle because it can throw. -/
def getAllResourcesExecute (fetch : Nat → Except String PaginatedResources)
    (limit : Nat) : AllResourcesResult :=
  match fetch (if limit == 0 then 100 else limit) with
  | .error e => { total := 0, resources := [], error := some e }
  | .ok result =>
    { total := result.total
      resources := result.resources.map (fun r =>
        { id := r.id, filename := r.filename, contentType := r.contentType
          status := r.status, createdAt := r.createdAt })
      error := none }

/-- The list-resources tool connected to the database layer: the oracle is
`getResourcesPaginated` itself (page 1, empty search), which in the pure
model cannot throw. -/
def getAllResourcesTool (db : Db) (limit : Nat) : AllResourcesResult :=
  getAllResourcesExecute (fun l => .ok (getResourcesPaginated db 1 l "")) limit

/-- The JSON body the Ollama `/api/embed` endpoint may return: an
`embeddings` array of vectors and/or a single `embedding` vector, either
of which may be absent. -/
structure OllamaData where
  embeddings : Option (List (List ℚ))
  embedding : Option (List ℚ)
  deriving Repr, DecidableEq

/-- The JavaScript truthiness test `ollamaBaseURL && ollamaBaseURL.trim()`
guarding the Ollama path: the variable is set and its trimmed value is
non-empty, i.e. it contains a non-whitespace character. -/
def ollamaEnabled (ollamaBaseURL : Option String) : Bool :=
  match ollamaBaseURL with
  | none => false
  | some url => url.toList.any (fun c => !c.isWhitespace)

/-- `generateEmbedding` (`ai/embeddings/generate.ts:36`).  The two
provider calls are `Except`-valued oracles: `ollamaFetch` models the
`fetch` of the Ollama API (an error covers both a network failure and a
non-OK response), `openaiEmbed` models the AI SDK `embed` call (`.ok none`
models a result whose `embedding` field is missing).  The Ollama path is
taken when `OLLAMA_BASE_URL` is set and non-blank; it rejects a response
with neither embedding field and rejects an empty embedding array.  The
OpenAI path rejects only a missing embedding.  Both `catch` blocks of the
source log and rethrow, so errors propagate unchanged. -/
def generateEmbedding (ollamaBaseURL : Option String)
    (ollamaFetch : String → Except String OllamaData)
    (openaiEmbed : String → Except String (Option (List ℚ)))
    (value : String) : Except String (List ℚ) :=
  if ollamaEnabled ollamaBaseURL then
    match ollamaFetch value with
    | .error e => .error e
    | .ok data =>
      -- the source picks `embeddings[0]`, else a present `embedding`,
      -- else throws; the picked array is then rejected when empty
      match data.embeddings with
      | some (e :: _) =>
        if e.isEmpty then .error "Invalid embedding format" else .ok e
      | _ =>
        match data.embedding with
        | some e =>
          if e.isEmpty then .error "Invalid embedding format" else .ok e
        | none => .error "Unexpected Ollama response format"
  else
    match openaiEmbed value with
    | .error e => .error e
    | .ok none => .error "Embedding generation failed"
    | .ok (some emb) => .ok emb

/-- Modelled from the spec: the Chunker component.  The chunking code
lives in the Dagster ingestion pipeline, which is not among the frontend
sources; the spec defines it as overlapping fixed-size windows where
window `i` starts `chunkSize - chunkOverlap` characters after window
`i-1`, the final window may be shorter than `chunkSize`, and text shorter
than `chunkSize` yields exactly one chunk.  A configuration with
`chunkOverlap ≥ chunkSize` is rejected at validation, so the model
guards on it only for termination. -/
def chunkText (chunkSize chunkOverlap : Nat) (text : List Char) :
    List (List Char) :=
  if _h : text.length ≤ chunkSize ∨ chunkSize ≤ chunkOverlap then [text]
  else
    text.take chunkSize ::
      chunkText chunkSize chunkOverlap (text.drop (chunkSize - chunkOverlap))
termination_by text.length
decreasing_by
  simp only [List.length_drop]
  omega

/-- Gluing chunks back together with the overlapping prefixes removed:
the first chunk whole, every later chunk without its first
`chunkOverlap` characters. -/
def joinChunks (chunkOverlap : Nat) : List (List Char) → List Char
  | [] => []
  | c :: cs => c ++ (cs.map (List.drop chunkOverlap)).flatten

/-- The `_meta` object attached to each search-tool result. -/
structure ToolMeta where
  chars : Nat
  folder : Option String
  thresholdUsed : ℚ
  searchAttempts : Nat
  deriving Repr, DecidableEq

/-- One element of the search tool's output array. -/
structure ToolSearchResult where
  content : String
  similarity : ℚ
  resourceName : Option String
  chunkIndex : Option Int
  meta : ToolMeta
  deriving Repr, DecidableEq

/-- The defensive filter of the search tool: keep results whose content
is neither empty nor whitespace-only
(`r.content && r.content.trim().length > 0`). -/
def validFilter (rs : List SimilaritySearchResult) :
    List SimilaritySearchResult :=
  rs.filter (fun r => !(r.content.trim == ""))

/-- `refineQuery` (`tools/get-information-from-embeddings.ts:18`): ask a
language model (the `refineRaw` oracle) for alternative phrasings, split
its text on newlines, trim, and drop blank lines and the original query;
its own `catch` turns any error into an empty list. -/
def refineQuery (refineRaw : String → Except String String)
    (originalQuery : String) : List String :=
  match refineRaw originalQuery with
  | .error _ => []
  | .ok text =>
    ((text.splitOn "\n").map String.trim).filter
      (fun q => !(q == "") && !(q == originalQuery))

/-- The final mapping of the search tool: compact results with `_meta`
carrying the threshold and attempt count of the search that produced
them. -/
def renderToolResults (searchResult : FallbackResult)
    (validResults : List SimilaritySearchResult) : List ToolSearchResult :=
  validResults.map (fun r =>
    { content := r.content
      similarity := r.similarity
      resourceName := r.resourceName
      chunkIndex := r.chunkIndex
      meta :=
        { chars := r.content.length
          folder := r.folder
          thresholdUsed := searchResult.threshold
          searchAttempts := searchResult.attempt } })

/-- The refinement `for` loop of the search tool: embed each refined
query, run the multi-hop search, and stop at the first non-empty valid
result set; embedding and search are fallible oracles whose errors
propagate to the surrounding `try`. -/
def refinementLoop (genEmb : String → Except String (List ℚ))
    (searchAllFb : List ℚ → Except String FallbackResult)
    (searchByRidFb : String → List ℚ → Except String FallbackResult)
    (rid : Option String) (acc : FallbackResult × List SimilaritySearchResult) :
    List String → Except String (FallbackResult × List SimilaritySearchResult)
  | [] => .ok acc
  | rq :: rest =>
    match genEmb rq with
    | .error e => .error e
    | .ok refinedEmbedding =>
      match (match rid with
             | some r => searchByRidFb r refinedEmbedding
             | none => searchAllFb refinedEmbedding) with
      | .error e => .error e
      | .ok refinedSearchResult =>
        let refinedValid := validFilter refinedSearchResult.results
        if refinedValid.isEmpty then
          refinementLoop genEmb searchAllFb searchByRidFb rid acc rest
        else .ok (refinedSearchResult, refinedValid)

/-- The body of `getInformationFromEmbeddings.execute`
(`tools/get-information-from-embeddings.ts:82`) inside its `try`: a falsy
(missing or empty) query returns `[]` at once; otherwise embed the query,
run the multi-hop search (scoped when a truthy `resourceId` is given),
keep non-blank results, fall back to query refinement when none remain,
and render the compact output. -/
def searchToolBody (genEmb : String → Except String (List ℚ))
    (refineRaw : String → Except String String)
    (searchAllFb : List ℚ → Except String FallbackResult)
    (searchByRidFb : String → List ℚ → Except String FallbackResult)
    (userQuery : String) (resourceId : Option String) :
    Except String (List ToolSearchResult) :=
  if userQuery == "" then .ok []
  else
    let rid : Option String :=
      match resourceId with
      | some r => if r == "" then none else some r
      | none => none
    match genEmb userQuery with
    | .error e => .error e
    | .ok userQueryEmbedded =>
      match (match rid with
             | some r => searchByRidFb r userQueryEmbedded
             | none => searchAllFb userQueryEmbedded) with
      | .error e => .error e
      | .ok searchResult =>
        let validResults := validFilter searchResult.results
        if validResults.isEmpty then
          match refinementLoop genEmb searchAllFb searchByRidFb rid
              (searchResult, validResults) (refineQuery refineRaw userQuery) with
          | .error e => .error e
          | .ok (sr, vr) => .ok (renderToolResults sr vr)
        else .ok (renderToolResults searchResult validResults)

/-- `getInformationFromEmbeddings.execute`: the surrounding `catch`
returns an empty array on any thrown error. -/
def searchToolExecute (genEmb : String → Except String (List ℚ))
    (refineRaw : String → Except String String)
    (searchAllFb : List ℚ → Except String FallbackResult)
    (searchByRidFb : String → List ℚ → Except String FallbackResult)
    (userQuery : String) (resourceId : Option String) : List ToolSearchResult :=
  match searchToolBody genEmb refineRaw searchAllFb searchByRidFb
      userQuery resourceId with
  | .ok v => v
  | .error _ => []

/-! ## Lemmas about the descending sort -/

instance : IsTotal JoinedRow simGE :=
  ⟨fun a b => le_total b.similarity a.similarity⟩

instance : IsTrans JoinedRow simGE :=
  ⟨fun _ _ _ hab hbc => le_trans hbc hab⟩

theorem sortBySim_perm (l : List JoinedRow) : List.Perm (sortBySim l) l :=
  List.perm_insertionSort simGE l

theorem sortBySim_sorted (l : List JoinedRow) :
    (sortBySim l).Pairwise simGE :=
  List.sorted_insertionSort simGE l

/-! ## Lemmas about the scanned rows and the ranked pipeline -/

theorem mem_joinedRows {db : Db} {cd : List ℚ → List ℚ → ℚ} {query : List ℚ}
    {j : JoinedRow} (h : j ∈ joinedRows db cd query) :
    ∃ e ∈ db.embeddings, j.embId = e.id ∧ j.resourceId = e.resourceId ∧
      j.content = e.content ∧ j.chunkIndex = e.chunkIndex ∧
      j.similarity = 1 - cd e.embedding query := by
  obtain ⟨e, he, rfl⟩ := List.mem_map.mp h
  exact ⟨e, he, rfl, rfl, rfl, rfl, rfl⟩

theorem mem_rankedRows {db : Db} {cd : List ℚ → List ℚ → ℚ} {query : List ℚ}
    {p : JoinedRow → Bool} {t : ℚ} {x : JoinedRow} :
    x ∈ rankedRows db cd query p t ↔
      x ∈ joinedRows db cd query ∧ p x = true ∧ t < x.similarity := by
  unfold rankedRows
  rw [(sortBySim_perm _).mem_iff, List.mem_filter]
  simp [and_assoc]

theorem length_rankedRows {db : Db} {cd : List ℚ → List ℚ → ℚ}
    {query : List ℚ} {p : JoinedRow → Bool} {t : ℚ} :
    (rankedRows db cd query p t).length =
      ((joinedRows db cd query).filter
        (fun j => p j && decide (t < j.similarity))).length :=
  (sortBySim_perm _).length_eq

/-- Each scoped search is the shared ranked pipeline with its scope
predicate, truncated and projected. -/
theorem searchScoped_eq_pipeline (db : Db) (cd : List ℚ → List ℚ → ℚ)
    (query : List ℚ) (scope : SearchScope) (options : SimilaritySearchOptions) :
    searchScoped db cd query scope options =
      ((rankedRows db cd query (scopePred scope)
          (options.threshold.getD SIMILARITY_THRESHOLD)).take
        (options.limit.getD DEFAULT_LIMIT)).map project := by
  cases scope <;>
    simp [searchScoped, scopePred, findRelevantContent,
      findRelevantContentByResourceId, findRelevantContentByFolder]

theorem rankedRows_length_le {db : Db} {cd : List ℚ → List ℚ → ℚ}
    {query : List ℚ} {p : JoinedRow → Bool} {t : ℚ} :
    (rankedRows db cd query p t).length ≤ db.embeddings.length := by
  rw [length_rankedRows]
  calc ((joinedRows db cd query).filter _).length
      ≤ (joinedRows db cd query).length := List.length_filter_le _ _
    _ = db.embeddings.length := by simp [joinedRows]

/-- A search returns nothing when no row in scope clears the threshold. -/
theorem findRelevantContent_eq_nil {db : Db} {cd : List ℚ → List ℚ → ℚ}
    {query : List ℚ} {limit : Nat} {t : ℚ}
    (h : ∀ e ∈ db.embeddings, 1 - cd e.embedding query ≤ t) :
    findRelevantContent db cd query { limit := some limit, threshold := some t } = [] := by
  unfold findRelevantContent
  have hfil : (joinedRows db cd query).filter
      (fun j => decide (t < j.similarity)) = [] := by
    rw [List.filter_eq_nil_iff]
    intro j hj
    obtain ⟨e, he, -, -, -, -, hsim⟩ := mem_joinedRows hj
    simp only [decide_eq_true_eq, hsim]
    exact not_lt_of_le (h e he)
  simp only [rankedRows, Bool.true_and, Option.getD_some]
  rw [hfil]
  simp [sortBySim, List.insertionSort]

end StudyCompanion

namespace StudyCompanion

/-- What the SQL `ORDER BY similarity DESC LIMIT limit` of the search
queries guarantees: the output is the projection of the first `limit`
rows of some descending-by-similarity arrangement of the WHERE-filtered
scan rows.  The queries have no secondary sort key
(`queries.ts:185,226,267`), so the relative order of equal-similarity
rows is not constrained. -/
def sqlSearchResult (db : Db) (cd : List ℚ → List ℚ → ℚ) (query : List ℚ)
    (p : JoinedRow → Bool) (threshold : ℚ) (limit : Nat)
    (out : List SimilaritySearchResult) : Prop :=
  ∃ perm : List JoinedRow,
    List.Perm perm ((joinedRows db cd query).filter
      (fun j => p j && decide (threshold < j.similarity))) ∧
    perm.Pairwise simGE ∧
    out = (perm.take limit).map project

/-- The SQL guarantee of each scoped search, its options resolved. -/
def sqlScopedResult (db : Db) (cd : List ℚ → List ℚ → ℚ) (query : List ℚ)
    (scope : SearchScope) (options : SimilaritySearchOptions)
    (out : List SimilaritySearchResult) : Prop :=
  sqlSearchResult db cd query (scopePred scope)
    (options.threshold.getD SIMILARITY_THRESHOLD)
    (options.limit.getD DEFAULT_LIMIT) out

/-- Two chunks with equal similarity to the query: "alpha" inserted
first (id 0), "beta" second (id 1). -/
def tieDb : Db :=
  ⟨[], [⟨0, "r1", some 0, "alpha", [1]⟩, ⟨1, "r1", some 1, "beta", [2]⟩]⟩

/-- A distance oracle giving every row similarity `1 - 1/5 = 4/5`. -/
def tieCd : List ℚ → List ℚ → ℚ := fun _ _ => 1/5

/-- Counterexample to C2's stable tie-break: the search queries order by
`desc(similarity)` alone, with no secondary sort key, so the database may
return equal-similarity rows in any order.  Concretely, with "alpha"
inserted before "beta" and both at similarity 4/5, the output listing
"beta" first satisfies everything the SQL requires — an admissible
execution whose equal-similarity rows are not in insertion order. -/
theorem search_tie_break_counterexample :
    sqlScopedResult tieDb tieCd [9] .all {}
      [⟨"beta", 4/5, none, none, some 1⟩,
       ⟨"alpha", 4/5, none, none, some 0⟩] ∧
    tieDb.embeddings.map (fun e => e.content) = ["alpha", "beta"] := by
  constructor
  · simp only [sqlScopedResult, sqlSearchResult, Option.getD_none, scopePred]
    refine ⟨[⟨1, "r1", "beta", 4/5, none, none, some 1⟩,
             ⟨0, "r1", "alpha", 4/5, none, none, some 0⟩], ?_, ?_, ?_⟩
    · have hfil : (joinedRows tieDb tieCd [9]).filter
          (fun j => (fun _ => true) j &&
            decide (SIMILARITY_THRESHOLD < j.similarity)) =
          [⟨0, "r1", "alpha", 4/5, none, none, some 0⟩,
           ⟨1, "r1", "beta", 4/5, none, none, some 1⟩] := by
        norm_num [joinedRows, tieDb, tieCd, lookupResource,
          SIMILARITY_THRESHOLD, List.filter]
      rw [hfil]
      exact List.Perm.swap _ _ _
    · norm_num [List.pairwise_cons, simGE]
    · norm_num [DEFAULT_LIMIT, project]
  · rfl

/-- **C2 (amended).** For every query embedding, limit, threshold and
scope (all rows, one resource id, or one folder/collection tag), the
search returns the first `limit` rows of some descending-by-similarity
arrangement of exactly the stored rows in scope whose similarity strictly
exceeds the threshold: every admissible output consists of in-scope rows
above the threshold, holds at most `limit` rows in descending similarity
order, contains every qualifying row when no truncation occurs, and any
qualifying row left out when truncation occurs has similarity at most
that of every returned row and forces a full page.  The relative order of
equal-similarity rows is not specified — the query has no secondary sort
key — and the executable model's output is one admissible arrangement. -/
theorem search_exactness (db : Db) (cd : List ℚ → List ℚ → ℚ)
    (query : List ℚ) (scope : SearchScope)
    (options : SimilaritySearchOptions) :
    (∀ out, sqlScopedResult db cd query scope options out →
      (∀ s ∈ out, ∃ j ∈ joinedRows db cd query, scopePred scope j = true ∧
        options.threshold.getD SIMILARITY_THRESHOLD < j.similarity ∧
        project j = s) ∧
      out.length ≤ options.limit.getD DEFAULT_LIMIT ∧
      out.Pairwise (fun a b => b.similarity ≤ a.similarity) ∧
      (((joinedRows db cd query).filter (fun j => scopePred scope j &&
          decide (options.threshold.getD SIMILARITY_THRESHOLD <
            j.similarity))).length ≤ options.limit.getD DEFAULT_LIMIT →
        ∀ j ∈ joinedRows db cd query, scopePred scope j = true →
          options.threshold.getD SIMILARITY_THRESHOLD < j.similarity →
          project j ∈ out) ∧
      (∀ j ∈ joinedRows db cd query, scopePred scope j = true →
        options.threshold.getD SIMILARITY_THRESHOLD < j.similarity →
        project j ∉ out →
        out.length = options.limit.getD DEFAULT_LIMIT ∧
        ∀ s ∈ out, j.similarity ≤ s.similarity)) ∧
    sqlScopedResult db cd query scope options
      (searchScoped db cd query scope options) := by
  set t := options.threshold.getD SIMILARITY_THRESHOLD with ht
  set limit := options.limit.getD DEFAULT_LIMIT with hlim
  constructor
  · rintro out ⟨perm, hperm, hsorted, rfl⟩
    refine ⟨?_, ?_, ?_, ?_, ?_⟩
    · intro s hs
      obtain ⟨j, hj, rfl⟩ := List.mem_map.mp hs
      have hjf := hperm.mem_iff.mp (List.mem_of_mem_take hj)
      obtain ⟨hjj, hcond⟩ := List.mem_filter.mp hjf
      simp only [Bool.and_eq_true, decide_eq_true_eq] at hcond
      exact ⟨j, hjj, hcond.1, hcond.2, rfl⟩
    · rw [List.length_map]
      exact List.length_take_le _ _
    · refine List.pairwise_map.mpr ?_
      refine List.Pairwise.imp ?_ (hsorted.sublist (List.take_sublist _ _))
      intro a b hab
      simpa [project] using hab
    · intro hlen j hjj hsp hts
      have hplen : perm.length ≤ limit := by
        rw [hperm.length_eq]; exact hlen
      rw [List.take_of_length_le hplen]
      refine List.mem_map.mpr ⟨j, hperm.mem_iff.mpr ?_, rfl⟩
      exact List.mem_filter.mpr ⟨hjj, by simp [hsp, hts]⟩
    · intro j hjj hsp hts hnot
      have hjperm : j ∈ perm :=
        hperm.mem_iff.mpr (List.mem_filter.mpr ⟨hjj, by simp [hsp, hts]⟩)
      have hjtake : j ∉ perm.take limit := fun hc =>
        hnot (List.mem_map.mpr ⟨j, hc, rfl⟩)
      have hjdrop : j ∈ perm.drop limit := by
        have hsplit : perm.take limit ++ perm.drop limit = perm :=
          List.take_append_drop _ _
        have : j ∈ perm.take limit ++ perm.drop limit := by
          rw [hsplit]; exact hjperm
        rcases List.mem_append.mp this with h | h
        · exact absurd h hjtake
        · exact h
      have hlt : limit < perm.length := by
        have hne : perm.drop limit ≠ [] := List.ne_nil_of_mem hjdrop
        have := List.length_drop limit perm
        have hpos : 0 < (perm.drop limit).length :=
          List.length_pos.mpr hne
        omega
      constructor
      · rw [List.length_map, List.length_take]
        omega
      · intro s hs
        obtain ⟨x, hx, rfl⟩ := List.mem_map.mp hs
        have hpw2 : (perm.take limit ++ perm.drop limit).Pairwise simGE := by
          rw [List.take_append_drop]; exact hsorted
        rw [List.pairwise_append] at hpw2
        have := hpw2.2.2 x hx j hjdrop
        simpa [project] using this
  · exact ⟨rankedRows db cd query (scopePred scope) t, sortBySim_perm _,
      sortBySim_sorted _, searchScoped_eq_pipeline db cd query scope options⟩

/-- Concrete database for the `search_exactness` witness: one resource
with two chunks of differing similarity. -/
def searchWitnessDb : Db :=
  ⟨[⟨"r1", "a.pdf", "f", "p", "pdf", "COMPLETED", 0⟩],
   [⟨0, "r1", some 0, "alpha", [1]⟩, ⟨1, "r1", some 1, "beta", [2]⟩]⟩

/-- Distance oracle for the `search_exactness` witness. -/
def searchWitnessCd : List ℚ → List ℚ → ℚ :=
  fun e _ => if e = [1] then 1/5 else 2/5

/-- Witness for `search_exactness` at a concrete database: the
executable search is an admissible output, and the theorem applied to it
bounds its length. -/
theorem search_exactness_witness :
    (searchScoped searchWitnessDb searchWitnessCd [9] .all {}).length ≤
      DEFAULT_LIMIT := by
  have h := search_exactness searchWitnessDb searchWitnessCd [9] .all {}
  simpa using (h.1 _ h.2).2.1

/-- **C4.** Threshold monotonicity: with a limit at least the number of
stored rows (so no truncation), every content returned at threshold 0.5
is also returned at threshold 0.15. -/
theorem threshold_monotonicity (db : Db) (cd : List ℚ → List ℚ → ℚ)
    (query : List ℚ) (scope : SearchScope) (limit : Nat)
    (hlimit : db.embeddings.length ≤ limit) :
    ∀ c ∈ (searchScoped db cd query scope
        { limit := some limit, threshold := some (1/2) }).map (·.content),
      c ∈ (searchScoped db cd query scope
        { limit := some limit, threshold := some (3/20) }).map (·.content) := by
  intro c hc
  rw [searchScoped_eq_pipeline] at hc
  obtain ⟨s, hs, rfl⟩ := List.mem_map.mp hc
  obtain ⟨j, hj, rfl⟩ := List.mem_map.mp hs
  have hm := mem_rankedRows.mp (List.mem_of_mem_take hj)
  have hj15 : j ∈ rankedRows db cd query (scopePred scope) (3/20) := by
    refine mem_rankedRows.mpr ⟨hm.1, hm.2.1, ?_⟩
    have := hm.2.2
    simp only [Option.getD_some] at this ⊢
    linarith
  rw [searchScoped_eq_pipeline]
  have hlen : (rankedRows db cd query (scopePred scope)
      (({ limit := some limit, threshold := some (3/20) } :
        SimilaritySearchOptions).threshold.getD SIMILARITY_THRESHOLD)).length ≤
      limit := le_trans rankedRows_length_le hlimit
  simp only [Option.getD_some] at hlen ⊢
  rw [List.take_of_length_le hlen]
  exact List.mem_map.mpr ⟨project j, List.mem_map.mpr ⟨j, hj15, rfl⟩, rfl⟩

/-- Concrete single-row database for the `threshold_monotonicity`
witness. -/
def monoWitnessDb : Db :=
  ⟨[], [⟨0, "r1", some 0, "alpha", [1]⟩]⟩

/-- Witness for `threshold_monotonicity` at a concrete database: the
chunk found at threshold 0.5 (similarity 0.6) is also found at 0.15. -/
theorem threshold_monotonicity_witness :
    "alpha" ∈ (searchScoped monoWitnessDb (fun _ _ => 2/5) [9] .all
        { limit := some 5, threshold := some (3/20) }).map (·.content) :=
  threshold_monotonicity monoWitnessDb (fun _ _ => 2/5) [9] .all 5
    (by simp [monoWitnessDb]) "alpha"
    (by
      norm_num [searchScoped, findRelevantContent, rankedRows, joinedRows,
        monoWitnessDb, sortBySim, List.insertionSort, List.orderedInsert,
        project, lookupResource, SIMILARITY_THRESHOLD])

/-- **C1.** The multi-hop search first tries the primary threshold 0.5
(default) and returns its non-empty results with `attempt = 1`;
otherwise it retries with 0.3 (`attempt = 2`) and then 0.15
(`attempt = 3`), returning the first non-empty result set tagged with the
threshold and attempt used; when everything is empty it ends with
`⟨[], 0.15, 3⟩`.  In particular, when the single stored chunk has
similarity exactly 0.2 to the query, the chunk is returned with
`threshold = 0.15, attempt = 3` — the lower thresholds are exhausted
before the (caller-side) reformulation path could run. -/
theorem fallback_ladder :
    (∀ (db : Db) (cd : List ℚ → List ℚ → ℚ) (query : List ℚ),
      (findRelevantContent db cd query
          { limit := some DEFAULT_LIMIT, threshold := some (1/2) } ≠ [] →
        findRelevantContentWithFallback db cd query {} =
          ⟨findRelevantContent db cd query
            { limit := some DEFAULT_LIMIT, threshold := some (1/2) }, 1/2, 1⟩) ∧
      (findRelevantContent db cd query
          { limit := some DEFAULT_LIMIT, threshold := some (1/2) } = [] →
        findRelevantContent db cd query
          { limit := some DEFAULT_LIMIT, threshold := some (3/10) } ≠ [] →
        findRelevantContentWithFallback db cd query {} =
          ⟨findRelevantContent db cd query
            { limit := some DEFAULT_LIMIT, threshold := some (3/10) }, 3/10, 2⟩) ∧
      (findRelevantContent db cd query
          { limit := some DEFAULT_LIMIT, threshold := some (1/2) } = [] →
        findRelevantContent db cd query
          { limit := some DEFAULT_LIMIT, threshold := some (3/10) } = [] →
        findRelevantContent db cd query
          { limit := some DEFAULT_LIMIT, threshold := some (3/20) } ≠ [] →
        findRelevantContentWithFallback db cd query {} =
          ⟨findRelevantContent db cd query
            { limit := some DEFAULT_LIMIT, threshold := some (3/20) }, 3/20, 3⟩) ∧
      (findRelevantContent db cd query
          { limit := some DEFAULT_LIMIT, threshold := some (1/2) } = [] →
        findRelevantContent db cd query
          { limit := some DEFAULT_LIMIT, threshold := some (3/10) } = [] →
        findRelevantContent db cd query
          { limit := some DEFAULT_LIMIT, threshold := some (3/20) } = [] →
        findRelevantContentWithFallback db cd query {} = ⟨[], 3/20, 3⟩)) ∧
    (∀ (rs : List Resource) (e : EmbeddingRow) (cd : List ℚ → List ℚ → ℚ)
        (query : List ℚ), 1 - cd e.embedding query = 1/5 →
      findRelevantContentWithFallback ⟨rs, [e]⟩ cd query {} =
        ⟨[⟨e.content, 1/5,
            (lookupResource ⟨rs, [e]⟩ e.resourceId).map (·.filename),
            (lookupResource ⟨rs, [e]⟩ e.resourceId).map (·.folder),
            e.chunkIndex⟩], 3/20, 3⟩) := by
  constructor
  · intro db cd query
    refine ⟨?_, ?_, ?_, ?_⟩
    · intro h1
      simp only [DEFAULT_LIMIT, SIMILARITY_THRESHOLD] at h1 ⊢
      simp only [findRelevantContentWithFallback, withFallback,
        SIMILARITY_THRESHOLD, DEFAULT_LIMIT, Option.getD_none,
        List.isEmpty_iff]
      rw [if_neg h1]
    · intro h1 h2
      simp only [DEFAULT_LIMIT, SIMILARITY_THRESHOLD] at h1 h2 ⊢
      simp only [findRelevantContentWithFallback, withFallback,
        tryFallbacksWith, FALLBACK_THRESHOLDS, SIMILARITY_THRESHOLD,
        DEFAULT_LIMIT, Option.getD_none, List.isEmpty_iff]
      rw [if_pos h1, if_neg h2]
    · intro h1 h2 h3
      simp only [DEFAULT_LIMIT, SIMILARITY_THRESHOLD] at h1 h2 h3 ⊢
      simp only [findRelevantContentWithFallback, withFallback,
        tryFallbacksWith, FALLBACK_THRESHOLDS, SIMILARITY_THRESHOLD,
        DEFAULT_LIMIT, Option.getD_none, List.isEmpty_iff]
      rw [if_pos h1, if_pos h2, if_neg h3]
    · intro h1 h2 h3
      simp only [DEFAULT_LIMIT, SIMILARITY_THRESHOLD] at h1 h2 h3 ⊢
      simp only [findRelevantContentWithFallback, withFallback,
        tryFallbacksWith, FALLBACK_THRESHOLDS, SIMILARITY_THRESHOLD,
        DEFAULT_LIMIT, Option.getD_none, List.isEmpty_iff]
      rw [if_pos h1, if_pos h2, if_pos h3]
      rfl
  · intro rs e cd query hsim
    simp [findRelevantContentWithFallback, withFallback, tryFallbacksWith,
      FALLBACK_THRESHOLDS, SIMILARITY_THRESHOLD, DEFAULT_LIMIT,
      findRelevantContent, rankedRows, joinedRows, sortBySim,
      List.insertionSort, List.orderedInsert, project, hsim,
      List.isEmpty_iff]
    norm_num
    rfl

/-- Witness for `fallback_ladder`: a single chunk at similarity 0.2 is
found on the third attempt with threshold 0.15. -/
theorem fallback_ladder_witness :
    findRelevantContentWithFallback ⟨[], [⟨0, "r1", some 0, "alpha", [1]⟩]⟩
        (fun _ _ => 4/5) [9] {} =
      ⟨[⟨"alpha", 1/5, none, none, some 0⟩], 3/20, 3⟩ := by
  have h := fallback_ladder.2 [] ⟨0, "r1", some 0, "alpha", [1]⟩
    (fun _ _ => 4/5) [9] (by norm_num)
  simpa [lookupResource] using h

/-- **C3.** When every stored vector has similarity at most 0.15 to the
query, the multi-hop search terminates normally (the model is a total
function; no error path is taken) with an empty result list and
`attempt = FALLBACK_THRESHOLDS.length + 1 = 3`. -/
theorem exhausted_ladder_empty (db : Db) (cd : List ℚ → List ℚ → ℚ)
    (query : List ℚ)
    (h : ∀ e ∈ db.embeddings, 1 - cd e.embedding query ≤ 3/20) :
    findRelevantContentWithFallback db cd query {} =
      ⟨[], 3/20, FALLBACK_THRESHOLDS.length + 1⟩ := by
  have h12 : findRelevantContent db cd query
      { limit := some DEFAULT_LIMIT, threshold := some (1/2) } = [] :=
    findRelevantContent_eq_nil (fun e he => le_trans (h e he) (by norm_num))
  have h310 : findRelevantContent db cd query
      { limit := some DEFAULT_LIMIT, threshold := some (3/10) } = [] :=
    findRelevantContent_eq_nil (fun e he => le_trans (h e he) (by norm_num))
  have h320 : findRelevantContent db cd query
      { limit := some DEFAULT_LIMIT, threshold := some (3/20) } = [] :=
    findRelevantContent_eq_nil (fun e he => h e he)
  simp only [DEFAULT_LIMIT, SIMILARITY_THRESHOLD] at h12 h310 h320
  simp only [findRelevantContentWithFallback, withFallback, tryFallbacksWith,
    FALLBACK_THRESHOLDS, SIMILARITY_THRESHOLD, DEFAULT_LIMIT,
    Option.getD_none, List.isEmpty_iff]
  rw [if_pos h12, if_pos h310, if_pos h320]
  rfl

/-- Witness for `exhausted_ladder_empty`: one stored chunk at
similarity 0.1. -/
theorem exhausted_ladder_empty_witness :
    findRelevantContentWithFallback ⟨[], [⟨0, "r1", some 0, "alpha", [1]⟩]⟩
        (fun _ _ => 9/10) [9] {} =
      ⟨[], 3/20, FALLBACK_THRESHOLDS.length + 1⟩ :=
  exhausted_ladder_empty _ _ _ (by intro e he; norm_num)

/-- **C9.** Deleting a resource through the DELETE endpoint leaves zero
embedding chunks referencing it: the post-state has no chunk with that
resource id, a search scoped to the deleted resource returns nothing, and
every result of any subsequently started search comes from a surviving
row of a different resource. -/
theorem resource_cascade_delete (db : Db) (rid : String) (r : Resource)
    (hfound : findResourceById db rid = some r) :
    ((deleteResourceEndpoint db rid).embeddings.filter
        (fun e => e.resourceId == rid)).length = 0 ∧
    (∀ e ∈ (deleteResourceEndpoint db rid).embeddings, e.resourceId ≠ rid) ∧
    (∀ (cd : List ℚ → List ℚ → ℚ) (query : List ℚ)
        (options : SimilaritySearchOptions),
      findRelevantContentByResourceId (deleteResourceEndpoint db rid) cd query
        rid options = []) ∧
    (∀ (cd : List ℚ → List ℚ → ℚ) (query : List ℚ) (scope : SearchScope)
        (options : SimilaritySearchOptions)
        (s : SimilaritySearchResult),
      s ∈ searchScoped (deleteResourceEndpoint db rid) cd query scope options →
      ∃ j ∈ joinedRows (deleteResourceEndpoint db rid) cd query,
        j.resourceId ≠ rid ∧ project j = s) := by
  have hrid : r.id = rid := by
    have := List.find?_some hfound
    simpa using this
  have hpost : (deleteResourceEndpoint db rid).embeddings =
      db.embeddings.filter (fun e => !(e.resourceId == rid)) := by
    unfold deleteResourceEndpoint
    rw [hfound]
    simp [deleteResourceById, deleteEmbeddingsByResourceId, hrid]
  have hmem : ∀ e ∈ (deleteResourceEndpoint db rid).embeddings,
      e.resourceId ≠ rid := by
    intro e he
    rw [hpost] at he
    have := (List.mem_filter.mp he).2
    simpa using this
  refine ⟨?_, hmem, ?_, ?_⟩
  · rw [List.length_eq_zero, List.filter_eq_nil_iff]
    intro e he
    simpa using hmem e he
  · intro cd query options
    unfold findRelevantContentByResourceId
    have hfil : (joinedRows (deleteResourceEndpoint db rid) cd query).filter
        (fun j => (j.resourceId == rid) &&
          decide (options.threshold.getD SIMILARITY_THRESHOLD <
            j.similarity)) = [] := by
      rw [List.filter_eq_nil_iff]
      intro j hj
      obtain ⟨e, he, -, hres, -⟩ := mem_joinedRows hj
      simp [hres, hmem e he]
    simp only [rankedRows]
    rw [hfil]
    simp [sortBySim, List.insertionSort]
  · intro cd query scope options s hs
    rw [searchScoped_eq_pipeline] at hs
    obtain ⟨j, hj, rfl⟩ := List.mem_map.mp hs
    have hm := mem_rankedRows.mp (List.mem_of_mem_take hj)
    obtain ⟨e, he, -, hres, -⟩ := mem_joinedRows hm.1
    exact ⟨j, hm.1, by rw [hres]; exact hmem e he, rfl⟩

/-- Concrete database for the `resource_cascade_delete` witness. -/
def cascadeWitnessDb : Db :=
  ⟨[⟨"r1", "a.pdf", "f", "p", "pdf", "COMPLETED", 0⟩],
   [⟨0, "r1", some 0, "alpha", [1]⟩, ⟨1, "r1", some 1, "beta", [2]⟩]⟩

/-- Witness for `resource_cascade_delete`: after deleting the only
resource, no chunk referencing it survives. -/
theorem resource_cascade_delete_witness :
    ((deleteResourceEndpoint cascadeWitnessDb "r1").embeddings.filter
        (fun e => e.resourceId == "r1")).length = 0 :=
  (resource_cascade_delete cascadeWitnessDb "r1"
    ⟨"r1", "a.pdf", "f", "p", "pdf", "COMPLETED", 0⟩ (by decide)).1

/-- Chunks of `db` owned by some resource of the folder. -/
def folderChunkCount (db : Db) (folder : String) : Nat :=
  (db.embeddings.filter (fun e =>
    ((db.resources.filter (fun r => r.folder == folder)).map (·.id)).contains
      e.resourceId)).length

/-- Concrete database for the C6 counterexample: one folder with one
resource holding two chunks. -/
def deleteCountDb : Db :=
  ⟨[⟨"r1", "a.pdf", "notes", "p", "pdf", "COMPLETED", 0⟩],
   [⟨0, "r1", some 0, "alpha", [1]⟩, ⟨1, "r1", some 1, "beta", [2]⟩]⟩

/-- Counterexample to C6: the folder "notes" owns 2 chunks and both are
deleted, yet `deleteEmbeddingsByFolder` returns 1 (the resource count),
not 2; and `deleteEmbeddingsByResourceId` returns no count at all (its
TypeScript type is `Promise<void>`). -/
theorem delete_counts_counterexample :
    folderChunkCount deleteCountDb "notes" = 2 ∧
    (deleteEmbeddingsByFolder deleteCountDb "notes").1.embeddings.length = 0 ∧
    (deleteEmbeddingsByFolder deleteCountDb "notes").2 = 1 := by
  decide

/-- **C6 (amended).** Both delete operations remove every matching chunk
row.  `deleteEmbeddingsByResourceId` returns no count (void);
`deleteEmbeddingsByFolder` returns the number of resources in the
folder — not the number of chunks deleted, which is the folder's chunk
count. -/
theorem delete_counts (db : Db) (rid folder : String) :
    (deleteEmbeddingsByResourceId db rid).embeddings.length +
      (db.embeddings.filter (fun e => e.resourceId == rid)).length =
      db.embeddings.length ∧
    ((deleteEmbeddingsByResourceId db rid).embeddings.filter
      (fun e => e.resourceId == rid)).length = 0 ∧
    (deleteEmbeddingsByFolder db folder).2 =
      (db.resources.filter (fun r => r.folder == folder)).length ∧
    (deleteEmbeddingsByFolder db folder).1.embeddings.length +
      folderChunkCount db folder = db.embeddings.length := by
  refine ⟨?_, ?_, ?_, ?_⟩
  · unfold deleteEmbeddingsByResourceId
    have := List.length_eq_length_filter_add
      (l := db.embeddings) (fun e => e.resourceId == rid)
    simpa [Nat.add_comm] using this.symm
  · rw [List.length_eq_zero, List.filter_eq_nil_iff]
    intro e he
    have := (List.mem_filter.mp he).2
    simpa using this
  · unfold deleteEmbeddingsByFolder
    by_cases h : (db.resources.filter (fun r => r.folder == folder)).isEmpty
    · rw [if_pos h]
      rw [List.isEmpty_iff] at h
      simp [h]
    · rw [if_neg h]
      simp
  · unfold deleteEmbeddingsByFolder folderChunkCount
    by_cases h : (db.resources.filter (fun r => r.folder == folder)).isEmpty
    · rw [if_pos h]
      rw [List.isEmpty_iff] at h
      simp [h]
    · rw [if_neg h]
      have := List.length_eq_length_filter_add
        (l := db.embeddings) (fun e =>
          ((db.resources.filter (fun r => r.folder == folder)).map
            (·.id)).contains e.resourceId)
      simpa [Nat.add_comm] using this.symm

/-- Concrete database for the C5 counterexample: 51 resources. -/
def manyResourcesDb : Db :=
  ⟨List.replicate 51 ⟨"r", "a.pdf", "f", "p", "pdf", "COMPLETED", 0⟩, []⟩

/-- Shared computation: what the list-resources tool returns on any
database and limit (the DB oracle being the pure pagination query). -/
theorem getAllResourcesTool_spec (db : Db) (limit : Nat) :
    (getAllResourcesTool db limit).resources.length =
      min (min (if limit == 0 then 100 else limit) 50) db.resources.length ∧
    (getAllResourcesTool db limit).total = db.resources.length ∧
    (getAllResourcesTool db limit).error = none := by
  unfold getAllResourcesTool getAllResourcesExecute getResourcesPaginated
  simp [List.length_take, List.length_insertionSort, min_assoc]

/-- Counterexample to C5: with 51 resources (strictly more than 50, at
most 100) the list-resources tool invoked with its default limit of 100
returns only 50 of them — `getResourcesPaginated` clamps the page size to
`min(limit, 50)` — so the result does not contain all resources. -/
theorem list_resources_cap_counterexample :
    manyResourcesDb.resources.length = 51 ∧
    (getAllResourcesTool manyResourcesDb 100).total = 51 ∧
    (getAllResourcesTool manyResourcesDb 100).resources.length = 50 := by
  have h := getAllResourcesTool_spec manyResourcesDb 100
  refine ⟨by simp [manyResourcesDb], ?_, ?_⟩
  · rw [h.2.1]; simp [manyResourcesDb]
  · rw [h.1]; simp [manyResourcesDb]

/-- **C5 (amended).** The list-resources tool passes `limit || 100` down,
but `getResourcesPaginated` caps the page size at `min(limit, 50)`: the
tool returns `min(min(limit || 100, 50), total)` resources — every
resource only when at most 50 exist — while `total` still reports the
full count and no error is set. -/
theorem list_resources_cap (db : Db) (limit : Nat) :
    (getAllResourcesTool db limit).resources.length =
      min (min (if limit == 0 then 100 else limit) 50) db.resources.length ∧
    (getAllResourcesTool db limit).total = db.resources.length ∧
    (getAllResourcesTool db limit).error = none :=
  getAllResourcesTool_spec db limit

/-- An OpenAI-path provider oracle that answers the empty-string input
with an empty embedding array (a value the AI SDK's `number[]` type
permits). -/
def emptyVectorProvider : String → Except String (Option (List ℚ)) :=
  fun _ => .ok (some [])

/-- An Ollama oracle that is never reached when `OLLAMA_BASE_URL` is
unset. -/
def unusedOllama : String → Except String OllamaData :=
  fun _ => .error "unreachable"

/-- Counterexample to C7: `generateEmbedding` has no empty-input guard.
With no Ollama configured and a provider whose `embed` succeeds on the
empty string with an empty array, `generateEmbedding ""` returns that
empty vector instead of failing — refuting both "fails with an error on
empty input" and "never returns an empty vector for empty input". -/
theorem embedding_empty_input_counterexample :
    generateEmbedding none unusedOllama emptyVectorProvider "" =
      .ok [] := by
  rfl

/-- **C7 (amended).** `generateEmbedding` propagates every provider or
network error as an exception, and on the Ollama path any vector it
returns is non-empty (missing or empty embedding arrays are rejected);
but it performs no validation of empty input itself: the empty string is
forwarded to the provider, and on the OpenAI path whatever array the
provider returns — even an empty one — is returned without error. -/
theorem embedding_error_propagation (url : Option String)
    (ollamaFetch : String → Except String OllamaData)
    (openaiEmbed : String → Except String (Option (List ℚ)))
    (value : String) :
    (∀ e, ollamaEnabled url = true → ollamaFetch value = .error e →
      generateEmbedding url ollamaFetch openaiEmbed value = .error e) ∧
    (∀ v, ollamaEnabled url = true →
      generateEmbedding url ollamaFetch openaiEmbed value = .ok v →
      v ≠ []) ∧
    (∀ e, ollamaEnabled url = false → openaiEmbed value = .error e →
      generateEmbedding url ollamaFetch openaiEmbed value = .error e) ∧
    (ollamaEnabled url = false → openaiEmbed value = .ok none →
      generateEmbedding url ollamaFetch openaiEmbed value =
        .error "Embedding generation failed") := by
  refine ⟨?_, ?_, ?_, ?_⟩
  · intro e h hf
    simp [generateEmbedding, h, hf]
  · intro v h hok
    unfold generateEmbedding at hok
    rw [if_pos h] at hok
    split at hok
    · exact absurd hok (by simp)
    · split at hok
      · split at hok
        · exact absurd hok (by simp)
        · rename_i hne
          obtain rfl := by simpa using hok
          simpa [List.isEmpty_iff] using hne
      · split at hok
        · split at hok
          · exact absurd hok (by simp)
          · rename_i hne
            obtain rfl := by simpa using hok
            simpa [List.isEmpty_iff] using hne
        · exact absurd hok (by simp)
  · intro e h hf
    simp [generateEmbedding, h, hf]
  · intro h hf
    simp [generateEmbedding, h, hf]

/-- Witness for `embedding_error_propagation`: a failing OpenAI call on a
non-empty input propagates its error. -/
theorem embedding_error_propagation_witness :
    generateEmbedding none unusedOllama (fun _ => .error "boom") "query" =
      .error "boom" :=
  (embedding_error_propagation none unusedOllama
    (fun _ => .error "boom") "query").2.2.1 "boom" rfl rfl

/-- **C10.** Both agent tools are total at their interface.  The search
tool returns `[]` when the query is missing (falsy) and returns `[]`
whenever its body — embedding, search, or the refinement loop — throws,
never propagating the exception.  The list-resources tool returns
`{total := 0, resources := [], error}` when the database call throws, and
the mapped result with no error otherwise. -/
theorem tools_total (genEmb : String → Except String (List ℚ))
    (refineRaw : String → Except String String)
    (searchAllFb : List ℚ → Except String FallbackResult)
    (searchByRidFb : String → List ℚ → Except String FallbackResult)
    (userQuery : String) (resourceId : Option String)
    (fetch : Nat → Except String PaginatedResources) (limit : Nat) :
    (userQuery = "" →
      searchToolExecute genEmb refineRaw searchAllFb searchByRidFb
        userQuery resourceId = []) ∧
    (∀ e, searchToolBody genEmb refineRaw searchAllFb searchByRidFb
        userQuery resourceId = .error e →
      searchToolExecute genEmb refineRaw searchAllFb searchByRidFb
        userQuery resourceId = []) ∧
    (∀ e, fetch (if limit == 0 then 100 else limit) = .error e →
      getAllResourcesExecute fetch limit = ⟨0, [], some e⟩) ∧
    (∀ r, fetch (if limit == 0 then 100 else limit) = .ok r →
      getAllResourcesExecute fetch limit =
        ⟨r.total,
         r.resources.map (fun x =>
           ⟨x.id, x.filename, x.contentType, x.status, x.createdAt⟩),
         none⟩) := by
  refine ⟨?_, ?_, ?_, ?_⟩
  · intro h
    subst h
    simp [searchToolExecute, searchToolBody]
  · intro e he
    simp [searchToolExecute, he]
  · intro e he
    simp only [beq_iff_eq] at he
    simp [getAllResourcesExecute, he]
  · intro r hr
    simp only [beq_iff_eq] at hr
    simp [getAllResourcesExecute, hr]

/-- Witness for `tools_total`: with every oracle failing, the search tool
returns the empty array and the list tool returns the error object. -/
theorem tools_total_witness :
    searchToolExecute (fun _ => .error "down") (fun _ => .error "down")
      (fun _ => .error "down") (fun _ _ => .error "down") "question" none =
      [] ∧
    getAllResourcesExecute (fun _ => .error "down") 0 = ⟨0, [], some "down"⟩ := by
  have h := tools_total (fun _ => .error "down") (fun _ => .error "down")
    (fun _ => .error "down") (fun _ _ => .error "down") "question" none
    (fun _ => .error "down") 0
  exact ⟨h.2.1 "down" rfl, h.2.2.1 "down" rfl⟩

/-! ## Lemmas about the chunker -/

theorem chunkText_drop_flatten {s o : Nat} (t : List Char) :
    ((chunkText s o t).map (List.drop o)).flatten = t.drop o := by
  induction t using chunkText.induct s o with
  | case1 t ht => rw [chunkText, dif_pos ht]; simp
  | case2 t ht ih =>
    rw [chunkText, dif_neg ht]
    simp only [List.map_cons, List.flatten_cons, ih]
    rw [List.drop_take, List.drop_drop]
    have hdd : List.drop (s - o + o) t = List.drop (s - o) (List.drop o t) := by
      rw [List.drop_drop]
      congr 1
      omega
    rw [hdd, List.take_append_drop]

theorem chunkText_count {s o : Nat} (h : o < s) (t : List Char) :
    (chunkText s o t).length =
      max 1 ((t.length - o + (s - o) - 1) / (s - o)) := by
  induction t using chunkText.induct s o with
  | case1 t ht =>
    rw [chunkText, dif_pos ht]
    have hle : t.length ≤ s := by omega
    have hd : 0 < s - o := by omega
    have hdiv : (t.length - o + (s - o) - 1) / (s - o) < 2 :=
      (Nat.div_lt_iff_lt_mul hd).mpr (by omega)
    simp only [List.length_singleton]
    generalize (t.length - o + (s - o) - 1) / (s - o) = q at hdiv ⊢
    omega
  | case2 t ht ih =>
    rw [chunkText, dif_neg ht]
    simp only [List.length_cons]
    rw [ih]
    simp only [List.length_drop]
    have hd : 0 < s - o := by omega
    have hnum : t.length - o + (s - o) - 1 =
        (t.length - (s - o) - o + (s - o) - 1) + (s - o) := by omega
    have hstep : (t.length - o + (s - o) - 1) / (s - o) =
        (t.length - (s - o) - o + (s - o) - 1) / (s - o) + 1 := by
      rw [hnum, Nat.add_div_right _ hd]
    have hge : 1 ≤ (t.length - (s - o) - o + (s - o) - 1) / (s - o) :=
      (Nat.one_le_div_iff hd).mpr (by omega)
    rw [hstep]
    generalize (t.length - (s - o) - o + (s - o) - 1) / (s - o) = q at hge ⊢
    omega

/-- **C8.** Chunking round-trip (spec-modelled: the chunker lives in the
Dagster pipeline outside the frontend sources).  For every text and every
valid configuration `0 ≤ chunkOverlap < chunkSize`: concatenating the
windows with the overlapping prefixes removed reconstructs the text
exactly; the number of windows is
`max 1 (ceil((len - overlap) / (size - overlap)))` (ceiling division
written as `(len - overlap + (size - overlap) - 1) / (size - overlap)`);
and any text no longer than `chunkSize` yields exactly one chunk. -/
theorem chunking_roundtrip (text : List Char) (chunkSize chunkOverlap : Nat)
    (h : chunkOverlap < chunkSize) :
    joinChunks chunkOverlap (chunkText chunkSize chunkOverlap text) = text ∧
    (chunkText chunkSize chunkOverlap text).length =
      max 1 ((text.length - chunkOverlap + (chunkSize - chunkOverlap) - 1) /
        (chunkSize - chunkOverlap)) ∧
    (text.length ≤ chunkSize →
      chunkText chunkSize chunkOverlap text = [text]) := by
  refine ⟨?_, chunkText_count h text, ?_⟩
  · by_cases hle : text.length ≤ chunkSize
    · rw [chunkText, dif_pos (Or.inl hle)]
      simp [joinChunks]
    · rw [chunkText, dif_neg (by omega)]
      simp only [joinChunks]
      rw [chunkText_drop_flatten _, List.drop_drop]
      have hs : chunkSize - chunkOverlap + chunkOverlap = chunkSize := by
        omega
      rw [hs, List.take_append_drop]
  · intro hle
    rw [chunkText, dif_pos (Or.inl hle)]

/-- Witness for `chunking_roundtrip`: size 5, overlap 2 on an
8-character text (two chunks: `ceil((8-2)/3) = 2`). -/
theorem chunking_roundtrip_witness :
    joinChunks 2 (chunkText 5 2 "abcdefgh".toList) = "abcdefgh".toList ∧
    (chunkText 5 2 "abcdefgh".toList).length =
      max 1 (("abcdefgh".toList.length - 2 + (5 - 2) - 1) / (5 - 2)) ∧
    ("abcdefgh".toList.length ≤ 5 →
      chunkText 5 2 "abcdefgh".toList = ["abcdefgh".toList]) :=
  chunking_roundtrip "abcdefgh".toList 5 2 (by decide)

end StudyCompanion
